import Mathlib

/-!
Shallow embedding of `src/backend/app.py`, a Flask gateway over the
Frankfurter exchange-rate API.  We embed the `/api/rates` handler
(`get_rates`, lines 32-93) and the `/api/rates/multiple` handler
(`get_multiple_rates`, lines 95-228), together with the fragments of Python
runtime semantics their control flow depends on: truthiness, `dict.get`,
`str.upper`, the `in` operator, subscripting, and `dict.items`.

The upstream service is abstracted as a function from outbound requests to
results; handlers additionally return the list of outbound requests they
issued, so that claims about "no upstream call" are statable.
-/

/-- Parsed JSON values, as produced by `request.get_json()` and
`response.json()`.  Python dicts preserve insertion order, so objects are
association lists; JSON numbers (decimal literals) are rationals. -/
inductive Json where
  | null
  | bool (b : Bool)
  | num (q : Rat)
  | str (s : String)
  | arr (elems : List Json)
  | obj (fields : List (String × Json))
deriving Inhabited

/-- Whether a JSON value is an object (a Python dict). -/
def Json.isObj : Json → Bool
  | .obj _ => true
  | _ => false

/-- Python truthiness (`bool(x)`) of a parsed JSON value: `None`, `False`,
`0`, the empty string, the empty list and the empty dict are falsy. -/
def Json.truthy : Json → Bool
  | .null => false
  | .bool b => b
  | .num q => decide (q ≠ 0)
  | .str s => decide (s ≠ "")
  | .arr elems => !elems.isEmpty
  | .obj fields => !fields.isEmpty

/-- The exception classes the handlers' `except` clauses distinguish:
`requests.RequestException`, `ValueError`, and everything else
(`AttributeError`, `TypeError`, `KeyError`, ...).  Interpreter-generated
message text is abstracted to fixed descriptive strings; no handler logic
branches on it. -/
inductive PyExc where
  | valueError (msg : String)
  | requestError (msg : String)
  | otherError (msg : String)
deriving DecidableEq

/-- `j.get(key, dflt)`: defined only on dicts; on any other value Python
raises `AttributeError` (caught by the generic `except Exception`). -/
def pyGet (j : Json) (key : String) (dflt : Json) : Except PyExc Json :=
  match j with
  | .obj fields => .ok ((fields.lookup key).getD dflt)
  | _ => .error (.otherError "object has no attribute get")

/-- `str.upper()`, character-wise (ASCII case mapping, which is all the
handlers rely on for currency codes). -/
def strUpper (s : String) : String :=
  ⟨s.data.map Char.toUpper⟩

/-- `j.upper()`: defined only on strings; `AttributeError` otherwise. -/
def pyUpper (j : Json) : Except PyExc String :=
  match j with
  | .str s => .ok (strUpper s)
  | _ => .error (.otherError "object has no attribute upper")

/-- `needle` occurs as a contiguous run inside `hay`. -/
def substrAux (needle : List Char) : List Char → Bool
  | [] => needle.isEmpty
  | c :: rest => needle.isPrefixOf (c :: rest) || substrAux needle rest

/-- `s in j` for a string `s`: key membership on dicts, element membership on
lists (Python `==` relates equal strings; no other JSON value equals a
string), substring test on strings; `TypeError` on any other value. -/
def pyContains (j : Json) (s : String) : Except PyExc Bool :=
  match j with
  | .obj fields => .ok (fields.lookup s).isSome
  | .arr elems => .ok (elems.any (fun e => match e with | .str t => t == s | _ => false))
  | .str t => .ok (substrAux s.data t.data)
  | _ => .error (.otherError "TypeError: argument is not iterable")

/-- `j[key]` for a string key: dict lookup (`KeyError` when absent); strings
and lists only take integer indices (`TypeError`); other values are not
subscriptable (`TypeError`). -/
def pySubscript (j : Json) (key : String) : Except PyExc Json :=
  match j with
  | .obj fields =>
    match fields.lookup key with
    | some v => .ok v
    | none => .error (.otherError "KeyError")
  | .str _ => .error (.otherError "TypeError: string indices must be integers")
  | .arr _ => .error (.otherError "TypeError: list indices must be integers")
  | _ => .error (.otherError "TypeError: object is not subscriptable")

/-- `j.items()`: defined only on dicts; `AttributeError` otherwise. -/
def pyItems (j : Json) : Except PyExc (List (String × Json)) :=
  match j with
  | .obj fields => .ok fields
  | _ => .error (.otherError "object has no attribute items")

/-- `str(j)` as interpolated by f-strings.  Only the string case is exercised
by any claim; the container renderings are abstracted. -/
def pyStr : Json → String
  | .null => "None"
  | .bool true => "True"
  | .bool false => "False"
  | .num q => toString q
  | .str s => s
  | .arr _ => "<list repr>"
  | .obj _ => "<dict repr>"

/-- One outbound `requests.get` call: URL, query parameters in insertion
order, and the timeout in seconds when one is passed. -/
structure UpReq where
  url : String
  params : List (String × String)
  timeout : Option Nat
deriving DecidableEq

/-- What the upstream returns for one request: either some
`requests.RequestException` (connection failure, timeout, a non-2xx status
surfaced by `raise_for_status`, or an undecodable body), or a successfully
parsed JSON body. -/
inductive UpResult where
  | transportError (msg : String)
  | ok (body : Json)

/-- The upstream environment: the response to each outbound request. -/
def Upstream : Type := UpReq → UpResult

/-- The process clock, already `strftime('%Y-%m-%d')`-formatted.
`datetime.now()` yields the server's local date and `datetime.utcnow()` the
UTC date; the two differ near midnight whenever the server's timezone is not
UTC. -/
structure Clock where
  nowDate : String
  utcnowDate : String
deriving DecidableEq

def FRANKFURT_API_URL : String := "https://api.frankfurter.app"

/-- A `jsonify`-ed response of the single-pair handler: the HTTP status and
the body fields actually emitted on each branch. -/
inductive RatesResponse where
  | err (status : Nat) (success : Bool) (error : String) (message : String)
      (details : Option String)
  | ok (status : Nat) (success : Bool) (data : Json)

def RatesResponse.status : RatesResponse → Nat
  | .err s _ _ _ _ => s
  | .ok s _ _ => s

/-- `GET /api/rates` (lines 32-93).  `args` gives each query parameter's
value when present (query parameters are always strings).  Returns the
outbound requests issued together with the response. -/
def get_rates (env : Upstream) (args : String → Option String) :
    List UpReq × RatesResponse :=
  let base_currency := strUpper ((args "base").getD "")
  let target_currency := strUpper ((args "target").getD "")
  let start_date := (args "start_date").getD ""
  let end_date := (args "end_date").getD ""
  if base_currency = "" then
    ([], .err 400 false "Missing required parameter: base"
      "Base currency code is required (USD, CAD, EUR, etc.)" none)
  else
    let url :=
      if start_date ≠ "" ∧ end_date ≠ "" then
        FRANKFURT_API_URL ++ "/" ++ start_date ++ ".." ++ end_date
      else if start_date ≠ "" then
        FRANKFURT_API_URL ++ "/" ++ start_date
      else
        FRANKFURT_API_URL ++ "/latest"
    let params := ("from", base_currency) ::
      (if target_currency ≠ "" then [("to", target_currency)] else [])
    let req : UpReq := ⟨url, params, none⟩
    match env req with
    | .transportError m =>
        ([req], .err 500 false "External API error"
          "Failed to fetch data from Frankfurt API" (some m))
    | .ok data => ([req], .ok 200 true data)

/-- The allow-list of line 155. -/
def supported : List String := ["USD", "CAD", "EUR"]

/-- Lines 145-160: field extraction and validation for one batch pair, in
Python evaluation order.  On success returns
`(base, target, start_date, end_date)`; otherwise the first exception the
interpreter raises. -/
def validatePair (clock : Clock) (pair : Json) :
    Except PyExc (String × String × Json × Json) :=
  match pyGet pair "base" (Json.str "") with
  | .error e => .error e
  | .ok baseJ =>
  match pyUpper baseJ with
  | .error e => .error e
  | .ok base =>
  match pyGet pair "target" (Json.str "") with
  | .error e => .error e
  | .ok targetJ =>
  match pyUpper targetJ with
  | .error e => .error e
  | .ok target =>
  match pyGet pair "start_date" (Json.str "") with
  | .error e => .error e
  | .ok start_date =>
  match pyGet pair "end_date" (Json.str clock.nowDate) with
  | .error e => .error e
  | .ok end_date =>
  if base = "" ∨ target = "" ∨ start_date.truthy = false then
    .error (.valueError "Missing required fields: base, target, or start_date")
  else if base ∉ supported ∨ target ∉ supported then
    .error (.valueError
      ("Unsupported currency. Supported: " ++ String.intercalate ", " supported))
  else if base = target then
    .error (.valueError "Base and target currencies must be different")
  else
    .ok (base, target, start_date, end_date)

/-- Lines 173-178: the filtering loop over `api_data['rates'].items()`,
keeping `(date, rate_data[target])` for each date whose value admits the
membership test and contains `target`. -/
def collectRates (target : String) :
    List (String × Json) → Except PyExc (List (String × Json))
  | [] => .ok []
  | (date_str, rate_data) :: rest =>
    match pyContains rate_data target with
    | .error e => .error e
    | .ok c =>
      if c then
        match pySubscript rate_data target with
        | .error e => .error e
        | .ok v =>
          match collectRates target rest with
          | .error e => .error e
          | .ok tail => .ok ((date_str, v) :: tail)
      else
        collectRates target rest

/-- Lines 170-178: build the (unsorted) rates list from the upstream body. -/
def transformRates (apiData : Json) (target : String) :
    Except PyExc (List (String × Json)) :=
  match pyContains apiData "rates" with
  | .error e => .error e
  | .ok c =>
    if c then
      match pySubscript apiData "rates" with
      | .error e => .error e
      | .ok ratesJ =>
        match pyItems ratesJ with
        | .error e => .error e
        | .ok items => collectRates target items
    else
      .ok []

/-- Line 180: `rates.sort(key=lambda x: x['date'])` - a stable sort on the
date string. -/
def sortRates (rates : List (String × Json)) : List (String × Json) :=
  rates.mergeSort (fun a b => decide (a.1 ≤ b.1))

/-- One element of the batch `results` list (lines 182-190). -/
structure ResultEntry where
  success : Bool
  base_currency : String
  target_currency : String
  start_date : Json
  end_date : Json
  data : List (String × Json)
  count : Nat

/-- One element of the batch `errors` list (lines 194-211). -/
structure ErrorEntry where
  index : Nat
  pair : Json
  error : String

/-- The error string recorded for a failed pair, by exception class
(lines 194-211). -/
def excToEntryMsg : PyExc → String
  | .requestError m => "API request failed: " ++ m
  | .valueError m => m
  | .otherError m => "Unexpected error: " ++ m

/-- `str(e)`, as returned in the top-level 500 body (line 227). -/
def pyExcMsg : PyExc → String
  | .valueError m => m
  | .requestError m => m
  | .otherError m => m

/-- The outbound request of line 162-165 for one validated pair. -/
def pairRequest (base target : String) (start_date end_date : Json) : UpReq :=
  ⟨"https://api.frankfurter.app/" ++ pyStr start_date ++ ".." ++ pyStr end_date,
    [("from", base), ("to", target)], some 10⟩

/-- Lines 144-211: process one batch pair.  Returns the outbound requests
this pair issued and either its result entry or the exception raised. -/
def processPair (env : Upstream) (clock : Clock) (pair : Json) :
    List UpReq × Except PyExc ResultEntry :=
  match validatePair clock pair with
  | .error e => ([], .error e)
  | .ok (base, target, start_date, end_date) =>
    let req := pairRequest base target start_date end_date
    match env req with
    | .transportError m => ([req], .error (.requestError m))
    | .ok apiData =>
      match transformRates apiData target with
      | .error e => ([req], .error e)
      | .ok rates =>
        let sorted := sortRates rates
        ([req], .ok ⟨true, base, target, start_date, end_date, sorted, sorted.length⟩)

/-- Lines 140-211: the `for idx, pair in enumerate(pairs)` loop, with the
running index made explicit.  Returns all outbound requests, the `results`
list and the `errors` list, each in append order. -/
def batchLoop (env : Upstream) (clock : Clock) :
    Nat → List Json → List UpReq × List ResultEntry × List ErrorEntry
  | _, [] => ([], [], [])
  | idx, pair :: rest =>
    let cur := processPair env clock pair
    let others := batchLoop env clock (idx + 1) rest
    match cur.2 with
    | .ok r => (cur.1 ++ others.1, r :: others.2.1, others.2.2)
    | .error e =>
        (cur.1 ++ others.1, others.2.1, ⟨idx, pair, excToEntryMsg e⟩ :: others.2.2)

/-- Body of the 200 batch response (lines 213-220). -/
structure BatchOk where
  success : Bool
  results : List ResultEntry
  errors : Option (List ErrorEntry)
  total_pairs : Nat
  successful : Nat
  failed : Nat

/-- A `jsonify`-ed response of the batch handler. -/
inductive BatchResponse where
  | err (status : Nat) (success : Bool) (error : String) (message : String)
  | ok (status : Nat) (body : BatchOk)

def BatchResponse.status : BatchResponse → Nat
  | .err s _ _ _ => s
  | .ok s _ => s

/-- `POST /api/rates/multiple` (lines 95-228).  `body` is the outcome of
`request.get_json()`: `Except.error msg` when parsing itself raised (the
exception then reaches the top-level handler of line 222).  Returns the
outbound requests issued together with the response. -/
def get_multiple_rates (env : Upstream) (clock : Clock)
    (body : Except String Json) : List UpReq × BatchResponse :=
  match body with
  | .error msg => ([], .err 500 false "Internal server error" msg)
  | .ok data =>
    if data.truthy = false then
      ([], .err 400 false "Missing required field: pairs"
        "Request body must contain a \"pairs\" array")
    else
      match pyContains data "pairs" with
      | .error e => ([], .err 500 false "Internal server error" (pyExcMsg e))
      | .ok c =>
        if c = false then
          ([], .err 400 false "Missing required field: pairs"
            "Request body must contain a \"pairs\" array")
        else
          match pySubscript data "pairs" with
          | .error e => ([], .err 500 false "Internal server error" (pyExcMsg e))
          | .ok pairsJ =>
            match pairsJ with
            | .arr pairs =>
              if pairs.isEmpty then
                ([], .err 400 false "Invalid pairs format"
                  "pairs must be a non-empty array")
              else
                let out := batchLoop env clock 0 pairs
                (out.1, .ok 200 ⟨out.2.2.isEmpty, out.2.1,
                  if out.2.2.isEmpty then none else some out.2.2,
                  pairs.length, out.2.1.length, out.2.2.length⟩)
            | _ =>
              ([], .err 400 false "Invalid pairs format"
                "pairs must be a non-empty array")

/-! ## Helper lemmas about the batch loop -/

/-- The per-pair success selector: `some r` exactly when the pair succeeds. -/
def resultOf (env : Upstream) (clock : Clock) (p : Json) : Option ResultEntry :=
  match (processPair env clock p).2 with
  | .ok r => some r
  | .error _ => none

/-- The per-pair failure selector, applied to an (index, pair) entry. -/
def errEntryOf (env : Upstream) (clock : Clock) (ip : Nat × Json) :
    Option ErrorEntry :=
  match (processPair env clock ip.2).2 with
  | .error e => some ⟨ip.1, ip.2, excToEntryMsg e⟩
  | .ok _ => none

theorem batchLoop_requests (env : Upstream) (clock : Clock) (idx : Nat)
    (ps : List Json) :
    (batchLoop env clock idx ps).1 =
      ps.flatMap (fun p => (processPair env clock p).1) := by
  induction ps generalizing idx with
  | nil => simp [batchLoop]
  | cons p rest ih =>
    simp only [batchLoop, List.flatMap_cons]
    cases h : (processPair env clock p).2 <;> simp [h, ih]

theorem batchLoop_results (env : Upstream) (clock : Clock) (idx : Nat)
    (ps : List Json) :
    (batchLoop env clock idx ps).2.1 = ps.filterMap (resultOf env clock) := by
  induction ps generalizing idx with
  | nil => simp [batchLoop]
  | cons p rest ih =>
    simp only [batchLoop, List.filterMap_cons]
    cases h : (processPair env clock p).2 <;> simp [resultOf, h, ih]

theorem batchLoop_errors (env : Upstream) (clock : Clock) (idx : Nat)
    (ps : List Json) :
    (batchLoop env clock idx ps).2.2 =
      (ps.enumFrom idx).filterMap (errEntryOf env clock) := by
  induction ps generalizing idx with
  | nil => simp [batchLoop]
  | cons p rest ih =>
    simp only [batchLoop, List.enumFrom_cons, List.filterMap_cons]
    cases h : (processPair env clock p).2 <;> simp [errEntryOf, h, ih]

theorem batchLoop_length (env : Upstream) (clock : Clock) (idx : Nat)
    (ps : List Json) :
    (batchLoop env clock idx ps).2.1.length +
      (batchLoop env clock idx ps).2.2.length = ps.length := by
  induction ps generalizing idx with
  | nil => simp [batchLoop]
  | cons p rest ih =>
    simp only [batchLoop, List.length_cons]
    cases h : (processPair env clock p).2 <;> simp only [h, List.length_cons] <;>
      (have h2 := ih (idx + 1); omega)

theorem batchLoop_index_ge (env : Upstream) (clock : Clock) (idx : Nat)
    (ps : List Json) :
    ∀ e ∈ (batchLoop env clock idx ps).2.2, idx ≤ e.index := by
  induction ps generalizing idx with
  | nil => simp [batchLoop]
  | cons p rest ih =>
    intro e he
    simp only [batchLoop] at he
    cases h : (processPair env clock p).2 with
    | error ex =>
      rw [h] at he
      simp only [List.mem_cons] at he
      rcases he with he | he
      · subst he; exact Nat.le_refl idx
      · exact Nat.le_of_succ_le (ih (idx + 1) e he)
    | ok r =>
      rw [h] at he
      exact Nat.le_of_succ_le (ih (idx + 1) e he)

theorem batchLoop_index_pairwise (env : Upstream) (clock : Clock) (idx : Nat)
    (ps : List Json) :
    ((batchLoop env clock idx ps).2.2.map ErrorEntry.index).Pairwise (· < ·) := by
  induction ps generalizing idx with
  | nil => simp [batchLoop]
  | cons p rest ih =>
    simp only [batchLoop]
    cases h : (processPair env clock p).2 with
    | error ex =>
      simp only [h, List.map_cons]
      refine List.Pairwise.cons ?_ (ih (idx + 1))
      intro n hn
      simp only [List.mem_map] at hn
      obtain ⟨e, he, rfl⟩ := hn
      exact Nat.lt_of_succ_le (batchLoop_index_ge env clock (idx + 1) rest e he)
    | ok r =>
      simp only [h]
      exact ih (idx + 1)

theorem batchLoop_mem_append (env : Upstream) (clock : Clock) (idx : Nat)
    (pre post : List Json) (pair : Json) (e : PyExc)
    (hpe : (processPair env clock pair).2 = Except.error e) :
    (⟨idx + pre.length, pair, excToEntryMsg e⟩ : ErrorEntry) ∈
      (batchLoop env clock idx (pre ++ pair :: post)).2.2 := by
  induction pre generalizing idx with
  | nil =>
    simp only [List.nil_append, batchLoop, hpe, List.length_nil, Nat.add_zero]
    exact List.mem_cons_self _ _
  | cons q rest ih =>
    have h2 := ih (idx + 1)
    have h3 : idx + (q :: rest).length = idx + 1 + rest.length := by
      simp only [List.length_cons]; omega
    rw [h3]
    simp only [List.cons_append, batchLoop]
    cases h : (processPair env clock q).2 with
    | error ex =>
      simp only [h]
      exact List.mem_cons_of_mem _ h2
    | ok r =>
      simp only [h]
      exact h2

/-- Top-level validation of the batch body succeeding with pair list
`pairs`: the body is truthy, `'pairs' in data` holds, `data['pairs']`
evaluates to a list, and that list is non-empty. -/
def validBatch (data : Json) (pairs : List Json) : Prop :=
  data.truthy = true ∧ pyContains data "pairs" = Except.ok true ∧
    pySubscript data "pairs" = Except.ok (Json.arr pairs) ∧ pairs ≠ []

theorem get_multiple_rates_valid (env : Upstream) (clock : Clock) (data : Json)
    (pairs : List Json) (hv : validBatch data pairs) :
    get_multiple_rates env clock (Except.ok data) =
      ((batchLoop env clock 0 pairs).1,
        BatchResponse.ok 200
          ⟨(batchLoop env clock 0 pairs).2.2.isEmpty,
            (batchLoop env clock 0 pairs).2.1,
            if (batchLoop env clock 0 pairs).2.2.isEmpty then none
              else some (batchLoop env clock 0 pairs).2.2,
            pairs.length, (batchLoop env clock 0 pairs).2.1.length,
            (batchLoop env clock 0 pairs).2.2.length⟩) := by
  obtain ⟨h1, h2, h3, h4⟩ := hv
  rw [get_multiple_rates, h1, h2, h3]
  simp [h4]

/-! ## Helper lemmas about the per-pair transform -/

/-- The selection the transform performs, per upstream date entry: keep
`(date, rate_data[target])` exactly when the dict `rate_data` has a key
`target`. -/
def pickTarget (target : String) (entry : String × Json) :
    Option (String × Json) :=
  match entry.2 with
  | .obj fs => (fs.lookup target).map (fun v => (entry.1, v))
  | _ => none

theorem collectRates_obj (target : String) (items : List (String × Json))
    (h : ∀ p ∈ items, (p.2).isObj = true) :
    collectRates target items =
      Except.ok (items.filterMap (pickTarget target)) := by
  induction items with
  | nil => simp [collectRates]
  | cons p rest ih =>
    obtain ⟨d, rd⟩ := p
    have hobj := h (d, rd) (List.mem_cons_self _ _)
    have ih2 := ih (fun q hq => h q (List.mem_cons_of_mem _ hq))
    cases rd with
    | obj fs =>
      simp only [collectRates, pyContains, List.filterMap_cons, pickTarget]
      cases hl : fs.lookup target with
      | some v => simp [hl, pySubscript, ih2]
      | none => simp [hl, ih2]
    | null => simp [Json.isObj] at hobj
    | bool b => simp [Json.isObj] at hobj
    | num q => simp [Json.isObj] at hobj
    | str s => simp [Json.isObj] at hobj
    | arr xs => simp [Json.isObj] at hobj

theorem pickTarget_keys_sublist (target : String) (items : List (String × Json)) :
    ((items.filterMap (pickTarget target)).map Prod.fst).Sublist
      (items.map Prod.fst) := by
  induction items with
  | nil => simp
  | cons p rest ih =>
    obtain ⟨d, rd⟩ := p
    simp only [List.filterMap_cons, List.map_cons]
    cases h : pickTarget target (d, rd) with
    | none => exact ih.cons d
    | some v =>
      have hv : v.1 = d := by
        simp only [pickTarget] at h
        cases rd <;> simp only [reduceCtorEq] at h
        next fs =>
          rw [Option.map_eq_some'] at h
          obtain ⟨w, _, rfl⟩ := h
          rfl
      simp only [List.map_cons, hv]
      exact ih.cons₂ d

theorem sortRates_perm (rates : List (String × Json)) :
    (sortRates rates).Perm rates :=
  List.mergeSort_perm rates _

theorem sortRates_sorted (rates : List (String × Json)) :
    ((sortRates rates).map Prod.fst).Pairwise (· ≤ ·) := by
  have h := @List.sorted_mergeSort (String × Json)
    (fun a b => decide (a.1 ≤ b.1))
    (fun a b c hab hbc => by
      simp only [decide_eq_true_eq] at *
      exact le_trans hab hbc)
    (fun a b => by
      simp only [Bool.or_eq_true, decide_eq_true_eq]
      exact le_total a.1 b.1)
    rates
  rw [List.pairwise_map]
  exact h.imp (fun hab => of_decide_eq_true hab)

/-! ## Claim theorems -/

/-- A concrete upstream that always fails at transport level; used by
closed witnesses for claims whose conclusion never depends on the upstream
response. -/
def envNever : Upstream := fun _ => UpResult.transportError "connection refused"

/-- A concrete clock for closed witnesses. -/
def clockW : Clock := ⟨"2024-03-15", "2024-03-15"⟩

/-- C7: a GET /api/rates request whose `base` query parameter is absent or
empty gets HTTP 400 with a structured error body (success false, error
label, message) and no outbound upstream request is issued. -/
theorem C7_missing_base_400 (env : Upstream) (args : String → Option String)
    (h : args "base" = none ∨ args "base" = some "") :
    get_rates env args =
      ([], RatesResponse.err 400 false "Missing required parameter: base"
        "Base currency code is required (USD, CAD, EUR, etc.)" none) := by
  have hb : strUpper ((args "base").getD "") = "" := by
    rcases h with h | h <;> rw [h] <;> rfl
  simp [get_rates, hb]

/-- Witness for C7 at the concrete request with no query parameters. -/
theorem C7_missing_base_400_witness :
    ((fun _ => none : String → Option String) "base" = none ∨
      (fun _ => none : String → Option String) "base" = some "") ∧
    get_rates envNever (fun _ => none) =
      ([], RatesResponse.err 400 false "Missing required parameter: base"
        "Base currency code is required (USD, CAD, EUR, etc.)" none) :=
  ⟨Or.inl rfl, C7_missing_base_400 envNever (fun _ => none) (Or.inl rfl)⟩

/-- C8: with a non-empty `base`, the single-pair handler issues exactly one
outbound GET whose path is `{start}..{end}` when both dates are given
(present and non-empty), `{start}` when only the start date is given,
and `latest` otherwise (in particular when only the end date is given),
carrying `from=` the uppercased base and `to=` the uppercased target
exactly when the target is non-empty. -/
theorem C8_upstream_url_params (env : Upstream) (args : String → Option String)
    (h : strUpper ((args "base").getD "") ≠ "") :
    ∃ resp, get_rates env args =
      ([⟨(if (args "start_date").getD "" ≠ "" ∧ (args "end_date").getD "" ≠ "" then
            FRANKFURT_API_URL ++ "/" ++ (args "start_date").getD "" ++ ".." ++
              (args "end_date").getD ""
          else if (args "start_date").getD "" ≠ "" then
            FRANKFURT_API_URL ++ "/" ++ (args "start_date").getD ""
          else
            FRANKFURT_API_URL ++ "/latest"),
        ("from", strUpper ((args "base").getD "")) ::
          (if strUpper ((args "target").getD "") ≠ "" then
            [("to", strUpper ((args "target").getD ""))]
          else []),
        none⟩], resp) := by
  have key : ∀ r : UpReq, ∃ resp,
      (match env r with
        | .transportError m =>
            ([r], RatesResponse.err 500 false "External API error"
              "Failed to fetch data from Frankfurt API" (some m))
        | .ok d => ([r], RatesResponse.ok 200 true d)) = ([r], resp) := by
    intro r
    cases env r with
    | transportError m => exact ⟨_, rfl⟩
    | ok d => exact ⟨_, rfl⟩
  rw [get_rates]
  simp only [if_neg h]
  exact key _

/-- Concrete query parameters for the C8 witness: base given in lower case,
both dates given, no target. -/
def argsW : String → Option String := fun k =>
  if k = "base" then some "usd"
  else if k = "start_date" then some "2023-01-01"
  else if k = "end_date" then some "2023-01-31"
  else none

/-- Witness for C8 at a concrete request with both dates given. -/
theorem C8_upstream_url_params_witness :
    (strUpper ((argsW "base").getD "") ≠ "") ∧
    (∃ resp, get_rates envNever argsW =
      ([⟨(if (argsW "start_date").getD "" ≠ "" ∧ (argsW "end_date").getD "" ≠ "" then
            FRANKFURT_API_URL ++ "/" ++ (argsW "start_date").getD "" ++ ".." ++
              (argsW "end_date").getD ""
          else if (argsW "start_date").getD "" ≠ "" then
            FRANKFURT_API_URL ++ "/" ++ (argsW "start_date").getD ""
          else
            FRANKFURT_API_URL ++ "/latest"),
        ("from", strUpper ((argsW "base").getD "")) ::
          (if strUpper ((argsW "target").getD "") ≠ "" then
            [("to", strUpper ((argsW "target").getD ""))]
          else []),
        none⟩], resp)) :=
  ⟨by decide, C8_upstream_url_params envNever argsW (by decide)⟩

/-- C2: for a body passing top-level validation the batch handler answers
HTTP 200 even when pairs failed; `success` is true exactly when the error
list is empty, `errors` is the error list (or null when empty),
`total_pairs` is the input length, `successful` the number of results and
`failed` the number of errors. -/
theorem C2_batch_response_shape (env : Upstream) (clock : Clock) (data : Json)
    (pairs : List Json) (hv : validBatch data pairs) :
    ∃ b, (get_multiple_rates env clock (Except.ok data)).2 =
        BatchResponse.ok 200 b ∧
      (b.success = true ↔ (batchLoop env clock 0 pairs).2.2 = []) ∧
      b.errors = (if (batchLoop env clock 0 pairs).2.2.isEmpty then none
        else some ((batchLoop env clock 0 pairs).2.2)) ∧
      b.total_pairs = pairs.length ∧
      b.results = (batchLoop env clock 0 pairs).2.1 ∧
      b.successful = (batchLoop env clock 0 pairs).2.1.length ∧
      b.failed = (batchLoop env clock 0 pairs).2.2.length := by
  rw [get_multiple_rates_valid env clock data pairs hv]
  refine ⟨_, rfl, ?_, rfl, rfl, rfl, rfl, rfl⟩
  simp [List.isEmpty_iff]

/-- The pair used by batch witnesses: `base == target`, so its processing
always fails with a `ValueError` and issues no request. -/
def pairSame : Json :=
  Json.obj [("base", Json.str "USD"), ("target", Json.str "USD"),
    ("start_date", Json.str "2024-01-01")]

/-- The batch body used by batch witnesses. -/
def dataW : Json := Json.obj [("pairs", Json.arr [pairSame])]

theorem validBatch_dataW : validBatch dataW [pairSame] :=
  ⟨rfl, rfl, rfl, by simp⟩

/-- Witness for C2 at the concrete one-pair batch. -/
theorem C2_batch_response_shape_witness :
    validBatch dataW [pairSame] ∧
    (∃ b, (get_multiple_rates envNever clockW (Except.ok dataW)).2 =
        BatchResponse.ok 200 b ∧
      (b.success = true ↔ (batchLoop envNever clockW 0 [pairSame]).2.2 = []) ∧
      b.errors = (if (batchLoop envNever clockW 0 [pairSame]).2.2.isEmpty then none
        else some ((batchLoop envNever clockW 0 [pairSame]).2.2)) ∧
      b.total_pairs = ([pairSame] : List Json).length ∧
      b.results = (batchLoop envNever clockW 0 [pairSame]).2.1 ∧
      b.successful = (batchLoop envNever clockW 0 [pairSame]).2.1.length ∧
      b.failed = (batchLoop envNever clockW 0 [pairSame]).2.2.length) :=
  ⟨validBatch_dataW,
    C2_batch_response_shape envNever clockW dataW [pairSame] validBatch_dataW⟩

/-- C1: for a body passing top-level validation, any pair whose processing
raises is recorded in the error list with its index, its original payload
and an error message, the response is still the 200 batch response, and
every other pair still contributes an outcome (results plus errors exhaust
the input). -/
theorem C1_pair_failure_recorded (env : Upstream) (clock : Clock) (data : Json)
    (pairs : List Json) (hv : validBatch data pairs)
    (i : Nat) (hi : i < pairs.length) (e : PyExc)
    (he : (processPair env clock pairs[i]).2 = Except.error e) :
    ∃ b, (get_multiple_rates env clock (Except.ok data)).2 =
        BatchResponse.ok 200 b ∧
      b.errors = some ((batchLoop env clock 0 pairs).2.2) ∧
      (⟨i, pairs[i], excToEntryMsg e⟩ : ErrorEntry) ∈
        (batchLoop env clock 0 pairs).2.2 ∧
      (batchLoop env clock 0 pairs).2.1.length +
        (batchLoop env clock 0 pairs).2.2.length = pairs.length := by
  have hmem : (⟨i, pairs[i], excToEntryMsg e⟩ : ErrorEntry) ∈
      (batchLoop env clock 0 pairs).2.2 := by
    rw [batchLoop_errors, List.mem_filterMap]
    refine ⟨(i, pairs[i]), ?_, ?_⟩
    · have hlen : i < (pairs.enumFrom 0).length := by
        simpa [List.enumFrom_length] using hi
      have hm : (pairs.enumFrom 0)[i] ∈ pairs.enumFrom 0 :=
        List.getElem_mem hlen
      rw [List.getElem_enumFrom] at hm
      simpa using hm
    · simp [errEntryOf, he]
  have hne : (batchLoop env clock 0 pairs).2.2 ≠ [] := by
    intro h0
    rw [h0] at hmem
    exact absurd hmem (List.not_mem_nil _)
  rw [get_multiple_rates_valid env clock data pairs hv]
  refine ⟨_, rfl, ?_, hmem, batchLoop_length env clock 0 pairs⟩
  simp [List.isEmpty_iff, hne]

/-- Witness for C1: in the concrete one-pair batch, pair 0 fails with the
same-currency `ValueError` and is recorded at index 0. -/
theorem C1_pair_failure_recorded_witness :
    validBatch dataW [pairSame] ∧ 0 < ([pairSame] : List Json).length ∧
    (processPair envNever clockW pairSame).2 = Except.error
      (PyExc.valueError "Base and target currencies must be different") ∧
    (∃ b, (get_multiple_rates envNever clockW (Except.ok dataW)).2 =
        BatchResponse.ok 200 b ∧
      b.errors = some ((batchLoop envNever clockW 0 [pairSame]).2.2) ∧
      (⟨0, pairSame, excToEntryMsg (PyExc.valueError
          "Base and target currencies must be different")⟩ : ErrorEntry) ∈
        (batchLoop envNever clockW 0 [pairSame]).2.2 ∧
      (batchLoop envNever clockW 0 [pairSame]).2.1.length +
        (batchLoop envNever clockW 0 [pairSame]).2.2.length =
          ([pairSame] : List Json).length) :=
  ⟨validBatch_dataW, by decide, rfl,
    C1_pair_failure_recorded envNever clockW dataW [pairSame] validBatch_dataW
      0 (by decide) _ rfl⟩

/-- C9: for a body passing top-level validation, every pair contributes
exactly one outcome: `successful + failed = total_pairs`, the results are
the successful pairs' entries in input order, the errors are the failing
pairs' entries in input order, and error indices are strictly increasing. -/
theorem C9_one_outcome_per_pair (env : Upstream) (clock : Clock) (data : Json)
    (pairs : List Json) (hv : validBatch data pairs) :
    ∃ b, (get_multiple_rates env clock (Except.ok data)).2 =
        BatchResponse.ok 200 b ∧
      b.successful + b.failed = b.total_pairs ∧
      b.results = pairs.filterMap (resultOf env clock) ∧
      (batchLoop env clock 0 pairs).2.2 =
        (pairs.enumFrom 0).filterMap (errEntryOf env clock) ∧
      ((batchLoop env clock 0 pairs).2.2.map ErrorEntry.index).Pairwise
        (· < ·) := by
  rw [get_multiple_rates_valid env clock data pairs hv]
  exact ⟨_, rfl, batchLoop_length env clock 0 pairs,
    batchLoop_results env clock 0 pairs, batchLoop_errors env clock 0 pairs,
    batchLoop_index_pairwise env clock 0 pairs⟩

/-- Witness for C9 at the concrete one-pair batch. -/
theorem C9_one_outcome_per_pair_witness :
    validBatch dataW [pairSame] ∧
    (∃ b, (get_multiple_rates envNever clockW (Except.ok dataW)).2 =
        BatchResponse.ok 200 b ∧
      b.successful + b.failed = b.total_pairs ∧
      b.results = ([pairSame] : List Json).filterMap (resultOf envNever clockW) ∧
      (batchLoop envNever clockW 0 [pairSame]).2.2 =
        (([pairSame] : List Json).enumFrom 0).filterMap
          (errEntryOf envNever clockW) ∧
      ((batchLoop envNever clockW 0 [pairSame]).2.2.map ErrorEntry.index).Pairwise
        (· < ·)) :=
  ⟨validBatch_dataW,
    C9_one_outcome_per_pair envNever clockW dataW [pairSame] validBatch_dataW⟩

/-- C4: a batch pair whose `base` and `target` uppercase to the same
non-empty string always fails with a `ValueError` before any outbound
request, and in any batch it yields an error entry at its index. -/
theorem C4_same_currency_no_call (env : Upstream) (clock : Clock) (pair : Json)
    (b t : String)
    (hb : pyGet pair "base" (Json.str "") = Except.ok (Json.str b))
    (ht : pyGet pair "target" (Json.str "") = Except.ok (Json.str t))
    (heq : strUpper b = strUpper t) (hne : strUpper b ≠ "") :
    (processPair env clock pair).1 = [] ∧
    (∃ msg, (processPair env clock pair).2 =
      Except.error (PyExc.valueError msg)) ∧
    ∀ pre post : List Json, ∃ msg,
      (⟨pre.length, pair, msg⟩ : ErrorEntry) ∈
        (batchLoop env clock 0 (pre ++ pair :: post)).2.2 := by
  obtain ⟨fields, rfl⟩ : ∃ fs, pair = Json.obj fs := by
    cases pair with
    | obj fields => exact ⟨fields, rfl⟩
    | null => simp [pyGet] at hb
    | bool b0 => simp [pyGet] at hb
    | num q => simp [pyGet] at hb
    | str s => simp [pyGet] at hb
    | arr xs => simp [pyGet] at hb
  have hval : ∃ msg,
      validatePair clock (Json.obj fields) =
        Except.error (PyExc.valueError msg) := by
    simp only [pyGet, Except.ok.injEq] at hb ht
    simp only [validatePair, pyGet, hb, ht, pyUpper]
    by_cases hsd :
        Json.truthy ((fields.lookup "start_date").getD (Json.str "")) = false
    · rw [if_pos (Or.inr (Or.inr hsd))]
      exact ⟨_, rfl⟩
    · have h1 : ¬(strUpper b = "" ∨ strUpper t = "" ∨
          Json.truthy ((fields.lookup "start_date").getD (Json.str "")) =
            false) := by
        rintro (h | h | h)
        · exact hne h
        · exact hne (heq.trans h)
        · exact hsd h
      rw [if_neg h1]
      by_cases hsup : strUpper b ∈ supported
      · have h2 : ¬(strUpper b ∉ supported ∨ strUpper t ∉ supported) := by
          rintro (h | h)
          · exact h hsup
          · exact h (heq ▸ hsup)
        rw [if_neg h2, if_pos heq]
        exact ⟨_, rfl⟩
      · rw [if_pos (Or.inl hsup)]
        exact ⟨_, rfl⟩
  obtain ⟨msg, hval⟩ := hval
  refine ⟨by simp [processPair, hval], ⟨msg, by simp [processPair, hval]⟩, ?_⟩
  intro pre post
  refine ⟨msg, ?_⟩
  have hm := batchLoop_mem_append env clock 0 pre post (Json.obj fields)
    (PyExc.valueError msg) (by simp [processPair, hval])
  simpa [excToEntryMsg] using hm

/-- Witness for C4 at the concrete same-currency pair. -/
theorem C4_same_currency_no_call_witness :
    pyGet pairSame "base" (Json.str "") = Except.ok (Json.str "USD") ∧
    pyGet pairSame "target" (Json.str "") = Except.ok (Json.str "USD") ∧
    strUpper "USD" = strUpper "USD" ∧ strUpper "USD" ≠ "" ∧
    ((processPair envNever clockW pairSame).1 = [] ∧
    (∃ msg, (processPair envNever clockW pairSame).2 =
      Except.error (PyExc.valueError msg)) ∧
    ∀ pre post : List Json, ∃ msg,
      (⟨pre.length, pairSame, msg⟩ : ErrorEntry) ∈
        (batchLoop envNever clockW 0 (pre ++ pairSame :: post)).2.2) :=
  ⟨rfl, rfl, rfl, by decide,
    C4_same_currency_no_call envNever clockW pairSame "USD" "USD" rfl rfl rfl
      (by decide)⟩

/-- C10: a `pairs` element that is not a JSON object does not abort the
batch: its field access raises, the exception is recorded as an
"Unexpected error" entry at that element's index, and every other pair is
still processed. -/
theorem C10_non_object_pair (env : Upstream) (clock : Clock) (pair : Json)
    (h : pair.isObj = false) :
    ∃ m, processPair env clock pair = ([], Except.error (PyExc.otherError m)) ∧
      ∀ pre post : List Json,
        ((⟨pre.length, pair, "Unexpected error: " ++ m⟩ : ErrorEntry) ∈
          (batchLoop env clock 0 (pre ++ pair :: post)).2.2) ∧
        (batchLoop env clock 0 (pre ++ pair :: post)).2.1.length +
          (batchLoop env clock 0 (pre ++ pair :: post)).2.2.length =
            pre.length + 1 + post.length := by
  have hval : validatePair clock pair =
      Except.error (PyExc.otherError "object has no attribute get") := by
    cases pair with
    | obj fields => simp [Json.isObj] at h
    | null => rfl
    | bool b => rfl
    | num q => rfl
    | str s => rfl
    | arr xs => rfl
  refine ⟨"object has no attribute get", by simp [processPair, hval], ?_⟩
  intro pre post
  constructor
  · have hm := batchLoop_mem_append env clock 0 pre post pair
      (PyExc.otherError "object has no attribute get")
      (by simp [processPair, hval])
    simpa [excToEntryMsg] using hm
  · have hl := batchLoop_length env clock 0 (pre ++ pair :: post)
    simp only [List.length_append, List.length_cons] at hl
    omega

/-- Witness for C10 at a concrete string element. -/
theorem C10_non_object_pair_witness :
    (Json.str "USD-CAD").isObj = false ∧
    (∃ m, processPair envNever clockW (Json.str "USD-CAD") =
        ([], Except.error (PyExc.otherError m)) ∧
      ∀ pre post : List Json,
        ((⟨pre.length, Json.str "USD-CAD", "Unexpected error: " ++ m⟩ :
            ErrorEntry) ∈
          (batchLoop envNever clockW 0
            (pre ++ Json.str "USD-CAD" :: post)).2.2) ∧
        (batchLoop envNever clockW 0 (pre ++ Json.str "USD-CAD" :: post)).2.1.length +
          (batchLoop envNever clockW 0 (pre ++ Json.str "USD-CAD" :: post)).2.2.length =
            pre.length + 1 + post.length) :=
  ⟨rfl, C10_non_object_pair envNever clockW (Json.str "USD-CAD") rfl⟩

/-- C3: when a batch pair reaches the transform with an upstream body whose
`rates` member maps dates to per-currency objects (distinct dates, as in a
parsed JSON dict), the pair succeeds with a `data` list holding exactly one
`(date, rate)` entry per date whose object contains the target currency
(taking that currency's value), sorted strictly ascending by date whatever
the upstream order. -/
theorem C3_transform_filter_sort (env : Upstream) (clock : Clock) (pair : Json)
    (base target : String) (sd ed : Json)
    (afs ratesFields : List (String × Json))
    (hv : validatePair clock pair = Except.ok (base, target, sd, ed))
    (henv : env (pairRequest base target sd ed) = UpResult.ok (Json.obj afs))
    (hrates : afs.lookup "rates" = some (Json.obj ratesFields))
    (hobj : ∀ p ∈ ratesFields, (p.2).isObj = true)
    (hnd : (ratesFields.map Prod.fst).Nodup) :
    ∃ r, processPair env clock pair =
        ([pairRequest base target sd ed], Except.ok r) ∧
      r.data.Perm (ratesFields.filterMap (pickTarget target)) ∧
      (r.data.map Prod.fst).Pairwise (· < ·) := by
  have htrans : transformRates (Json.obj afs) target =
      Except.ok (ratesFields.filterMap (pickTarget target)) := by
    simp only [transformRates, pyContains, hrates, Option.isSome_some,
      if_true, pySubscript, pyItems]
    exact collectRates_obj target ratesFields hobj
  simp only [processPair, hv, henv, htrans]
  refine ⟨_, rfl, sortRates_perm _, ?_⟩
  have hle := sortRates_sorted (ratesFields.filterMap (pickTarget target))
  have hndf : ((ratesFields.filterMap (pickTarget target)).map Prod.fst).Nodup :=
    hnd.sublist (pickTarget_keys_sublist target ratesFields)
  have hperm :
      ((sortRates (ratesFields.filterMap (pickTarget target))).map
        Prod.fst).Perm
        ((ratesFields.filterMap (pickTarget target)).map Prod.fst) :=
    (sortRates_perm _).map _
  have hnds := (List.Perm.nodup_iff hperm).mpr hndf
  exact List.Pairwise.imp₂ (fun a b hab hne0 => lt_of_le_of_ne hab hne0)
    hle hnds

/-- A concrete valid pair for the C3/C5 witnesses. -/
def pairOk : Json :=
  Json.obj [("base", Json.str "USD"), ("target", Json.str "CAD"),
    ("start_date", Json.str "2023-01-01"), ("end_date", Json.str "2023-01-03")]

/-- Upstream `rates` entries for the C3 witness, deliberately out of date
order, with one date lacking the target currency. -/
def ratesW : List (String × Json) :=
  [("2023-01-03", Json.obj [("CAD", Json.num 1.35)]),
   ("2023-01-01", Json.obj [("CAD", Json.num 1.3)]),
   ("2023-01-02", Json.obj [("USD", Json.num 1)])]

/-- Upstream body fields for the C3 witness. -/
def apiFieldsW : List (String × Json) :=
  [("amount", Json.num 1), ("rates", Json.obj ratesW)]

/-- A concrete upstream that answers every request with the C3 body. -/
def envOk : Upstream := fun _ => UpResult.ok (Json.obj apiFieldsW)

/-- Witness for C3 at the concrete pair and out-of-order upstream body. -/
theorem C3_transform_filter_sort_witness :
    validatePair clockW pairOk = Except.ok ("USD", "CAD",
      Json.str "2023-01-01", Json.str "2023-01-03") ∧
    envOk (pairRequest "USD" "CAD" (Json.str "2023-01-01")
      (Json.str "2023-01-03")) = UpResult.ok (Json.obj apiFieldsW) ∧
    apiFieldsW.lookup "rates" = some (Json.obj ratesW) ∧
    (∀ p ∈ ratesW, (p.2).isObj = true) ∧
    (ratesW.map Prod.fst).Nodup ∧
    (∃ r, processPair envOk clockW pairOk =
        ([pairRequest "USD" "CAD" (Json.str "2023-01-01")
          (Json.str "2023-01-03")], Except.ok r) ∧
      r.data.Perm (ratesW.filterMap (pickTarget "CAD")) ∧
      (r.data.map Prod.fst).Pairwise (· < ·)) :=
  ⟨rfl, rfl, rfl, by decide, by decide,
    C3_transform_filter_sort envOk clockW pairOk "USD" "CAD"
      (Json.str "2023-01-01") (Json.str "2023-01-03") apiFieldsW ratesW
      rfl rfl rfl (by decide) (by decide)⟩

/-- A clock on which the server's local date (`datetime.now()`) differs from
the UTC date (`datetime.utcnow()`), as happens near midnight in any non-UTC
timezone. -/
def clockDrift : Clock := ⟨"2024-06-02", "2024-06-01"⟩

/-- A concrete valid pair with no `end_date` field. -/
def pairNoEnd : Json :=
  Json.obj [("base", Json.str "USD"), ("target", Json.str "CAD"),
    ("start_date", Json.str "2024-05-01")]

/-- A concrete upstream answering with an empty `rates` mapping. -/
def envEmptyRates : Upstream :=
  fun _ => UpResult.ok (Json.obj [("rates", Json.obj [])])

/-- Counterexample to C5 as stated: the code defaults `end_date` with
`datetime.now()` (the server's local date), not `datetime.utcnow()`.  On a
clock where the two differ, the defaulted value used in the URL and echoed
in the result is the local date `2024-06-02`, not the UTC date
`2024-06-01`. -/
theorem C5_counterexample :
    clockDrift.nowDate = "2024-06-02" ∧
    clockDrift.utcnowDate = "2024-06-01" ∧
    processPair envEmptyRates clockDrift pairNoEnd =
      ([pairRequest "USD" "CAD" (Json.str "2024-05-01")
          (Json.str "2024-06-02")],
        Except.ok ⟨true, "USD", "CAD", Json.str "2024-05-01",
          Json.str "2024-06-02", [], 0⟩) ∧
    (pairRequest "USD" "CAD" (Json.str "2024-05-01")
        (Json.str "2024-06-02")).url =
      "https://api.frankfurter.app/2024-05-01..2024-06-02" ∧
    ("2024-06-02" : String) ≠ clockDrift.utcnowDate := by
  have hval : validatePair clockDrift pairNoEnd =
      Except.ok ("USD", "CAD", Json.str "2024-05-01",
        Json.str "2024-06-02") := rfl
  have htr : transformRates (Json.obj [("rates", Json.obj [])]) "CAD" =
      Except.ok [] := rfl
  refine ⟨rfl, rfl, ?_, rfl, by decide⟩
  simp only [processPair, hval, envEmptyRates, htr, sortRates,
    List.mergeSort_nil, List.length_nil]

/-- C5 (amended): when a batch pair omits `end_date`, the handler defaults
it to the server's current **local** date (`datetime.now()`, which need not
be the UTC date), formatted `YYYY-MM-DD`; the defaulted value is the range
end of the upstream URL and is echoed in the pair's result whenever the
pair succeeds. -/
theorem C5_amended_local_date_default (env : Upstream) (clock : Clock)
    (fields : List (String × Json)) (b t sd : String)
    (hb : fields.lookup "base" = some (Json.str b))
    (ht : fields.lookup "target" = some (Json.str t))
    (hsd : fields.lookup "start_date" = some (Json.str sd))
    (hed : fields.lookup "end_date" = none)
    (hsupb : strUpper b ∈ supported) (hsupt : strUpper t ∈ supported)
    (hbt : strUpper b ≠ strUpper t) (hsdne : sd ≠ "") :
    validatePair clock (Json.obj fields) =
      Except.ok (strUpper b, strUpper t, Json.str sd,
        Json.str clock.nowDate) ∧
    (processPair env clock (Json.obj fields)).1 =
      [pairRequest (strUpper b) (strUpper t) (Json.str sd)
        (Json.str clock.nowDate)] ∧
    (pairRequest (strUpper b) (strUpper t) (Json.str sd)
        (Json.str clock.nowDate)).url =
      "https://api.frankfurter.app/" ++ sd ++ ".." ++ clock.nowDate ∧
    ∀ r, (processPair env clock (Json.obj fields)).2 = Except.ok r →
      r.end_date = Json.str clock.nowDate := by
  have hbne : strUpper b ≠ "" := by
    intro h0
    rw [h0] at hsupb
    simp [supported] at hsupb
  have htne : strUpper t ≠ "" := by
    intro h0
    rw [h0] at hsupt
    simp [supported] at hsupt
  have hval : validatePair clock (Json.obj fields) =
      Except.ok (strUpper b, strUpper t, Json.str sd,
        Json.str clock.nowDate) := by
    simp only [validatePair, pyGet, hb, ht, hsd, hed, Option.getD_some,
      Option.getD_none, pyUpper]
    have c1 : ¬(strUpper b = "" ∨ strUpper t = "" ∨
        Json.truthy (Json.str sd) = false) := by
      rintro (h | h | h)
      · exact hbne h
      · exact htne h
      · simp [Json.truthy, hsdne] at h
    rw [if_neg c1]
    have c2 : ¬(strUpper b ∉ supported ∨ strUpper t ∉ supported) := by
      rintro (h | h)
      · exact h hsupb
      · exact h hsupt
    rw [if_neg c2, if_neg hbt]
  refine ⟨hval, ?_, rfl, ?_⟩
  · simp only [processPair, hval]
    split
    · rfl
    · split <;> rfl
  · intro r hr
    simp only [processPair, hval] at hr
    split at hr
    · simp at hr
    · split at hr
      · simp at hr
      · simp at hr
        subst hr
        rfl

/-- Witness for the amended C5 at the concrete pair without `end_date`. -/
theorem C5_amended_local_date_default_witness :
    (let fields := [("base", Json.str "USD"), ("target", Json.str "CAD"),
      ("start_date", Json.str "2024-05-01")]
    fields.lookup "base" = some (Json.str "USD") ∧
    fields.lookup "target" = some (Json.str "CAD") ∧
    fields.lookup "start_date" = some (Json.str "2024-05-01") ∧
    fields.lookup "end_date" = none ∧
    strUpper "USD" ∈ supported ∧ strUpper "CAD" ∈ supported ∧
    strUpper "USD" ≠ strUpper "CAD" ∧ ("2024-05-01" : String) ≠ "" ∧
    (validatePair clockDrift (Json.obj fields) =
      Except.ok (strUpper "USD", strUpper "CAD", Json.str "2024-05-01",
        Json.str clockDrift.nowDate) ∧
    (processPair envEmptyRates clockDrift (Json.obj fields)).1 =
      [pairRequest (strUpper "USD") (strUpper "CAD")
        (Json.str "2024-05-01") (Json.str clockDrift.nowDate)] ∧
    (pairRequest (strUpper "USD") (strUpper "CAD")
        (Json.str "2024-05-01") (Json.str clockDrift.nowDate)).url =
      "https://api.frankfurter.app/" ++ "2024-05-01" ++ ".." ++
        clockDrift.nowDate ∧
    ∀ r, (processPair envEmptyRates clockDrift (Json.obj fields)).2 =
        Except.ok r →
      r.end_date = Json.str clockDrift.nowDate)) :=
  ⟨rfl, rfl, rfl, rfl, by decide, by decide, by decide, by decide,
    C5_amended_local_date_default envEmptyRates clockDrift
      [("base", Json.str "USD"), ("target", Json.str "CAD"),
        ("start_date", Json.str "2024-05-01")]
      "USD" "CAD" "2024-05-01" rfl rfl rfl rfl (by decide) (by decide)
      (by decide) (by decide)⟩

/-- Counterexample to C6 as stated: the parsed JSON body `5` has no `pairs`
key, yet the handler returns 500, not 400 — `'pairs' not in data` raises
`TypeError` on a truthy non-container body, which the top-level
`except Exception` turns into a 500 response. -/
theorem C6_counterexample :
    get_multiple_rates envNever clockW (Except.ok (Json.num 5)) =
      ([], BatchResponse.err 500 false "Internal server error"
        "TypeError: argument is not iterable") ∧
    (get_multiple_rates envNever clockW (Except.ok (Json.num 5))).2.status =
      500 := by
  constructor <;> rfl

/-- C6 (amended): a parsed batch body that is falsy, or whose membership
test `'pairs' in data` is defined (dict, list or string body) and comes out
false, or that is a dict whose `pairs` value is not a list or is an empty
list, gets HTTP 400 with a structured error body (success false, error
label, message) and no outbound call.  (A truthy non-container body instead
raises `TypeError` and yields HTTP 500, and a non-dict body passing the
membership test raises `TypeError` on `data['pairs']` and yields 500.) -/
theorem C6_amended_top_level_400 (env : Upstream) (clock : Clock) (data : Json)
    (h : data.truthy = false ∨ pyContains data "pairs" = Except.ok false ∨
      (∃ fields v, data = Json.obj fields ∧ fields.lookup "pairs" = some v ∧
        ∀ xs, v = Json.arr xs → xs = [])) :
    (get_multiple_rates env clock (Except.ok data)).1 = [] ∧
    ∃ er msg, (get_multiple_rates env clock (Except.ok data)).2 =
      BatchResponse.err 400 false er msg := by
  rcases h with h | h | ⟨fields, v, rfl, hlk, hv⟩
  · simp only [get_multiple_rates, h]
    exact ⟨rfl, _, _, rfl⟩
  · by_cases h0 : data.truthy = false
    · simp only [get_multiple_rates, h0]
      exact ⟨rfl, _, _, rfl⟩
    · have h0' : data.truthy = true := by
        revert h0
        cases data.truthy <;> simp
      simp only [get_multiple_rates, h0', h]
      exact ⟨rfl, _, _, rfl⟩
  · have hne : fields ≠ [] := by
      intro h0
      rw [h0] at hlk
      simp at hlk
    have htr : (Json.obj fields).truthy = true := by
      simp [Json.truthy, hne]
    have hc : pyContains (Json.obj fields) "pairs" = Except.ok true := by
      simp [pyContains, hlk]
    have hs : pySubscript (Json.obj fields) "pairs" = Except.ok v := by
      simp [pySubscript, hlk]
    simp only [get_multiple_rates, htr, hc, hs]
    cases v with
    | arr xs =>
      have hxs := hv xs rfl
      subst hxs
      exact ⟨rfl, _, _, rfl⟩
    | null => exact ⟨rfl, _, _, rfl⟩
    | bool b => exact ⟨rfl, _, _, rfl⟩
    | num q => exact ⟨rfl, _, _, rfl⟩
    | str s => exact ⟨rfl, _, _, rfl⟩
    | obj fs => exact ⟨rfl, _, _, rfl⟩

/-- The concrete body for the amended C6 witness: an empty `pairs` list. -/
def dataEmptyPairs : Json := Json.obj [("pairs", Json.arr [])]

/-- Witness for the amended C6 at the empty-`pairs` body. -/
theorem C6_amended_top_level_400_witness :
    (dataEmptyPairs.truthy = false ∨
      pyContains dataEmptyPairs "pairs" = Except.ok false ∨
      (∃ fields v, dataEmptyPairs = Json.obj fields ∧
        fields.lookup "pairs" = some v ∧ ∀ xs, v = Json.arr xs → xs = [])) ∧
    ((get_multiple_rates envNever clockW (Except.ok dataEmptyPairs)).1 = [] ∧
    ∃ er msg, (get_multiple_rates envNever clockW
        (Except.ok dataEmptyPairs)).2 = BatchResponse.err 400 false er msg) :=
  ⟨Or.inr (Or.inr ⟨[("pairs", Json.arr [])], Json.arr [], rfl, rfl,
      fun _ hx => (Json.arr.inj hx).symm⟩),
    C6_amended_top_level_400 envNever clockW dataEmptyPairs
      (Or.inr (Or.inr ⟨[("pairs", Json.arr [])], Json.arr [], rfl, rfl,
        fun _ hx => (Json.arr.inj hx).symm⟩))⟩
